import Mathlib

/-!
Shallow embedding of the eduproback backend's two in-scope components:
the search client (src/search.js: webSearch, checkSearchHealth,
searchWikipedia) and the authentication middleware (src/server.js:
requireAuth).  External I/O (the fetch of a search endpoint, the
identity-provider lookup raced against a timer) is modelled by passing
the outcome of the external interaction as an explicit argument; the
JavaScript bodies are translated statement by statement into total Lean
functions, with try/catch rendered as an Except-valued try block plus a
catch handler.
-/

set_option autoImplicit false

namespace EduProBack

/-- Truthiness of a possibly-absent JavaScript string: undefined and the
empty string are falsy, every other string is truthy. -/
def jsTruthy : Option String → Bool
| none => false
| some s => !s.isEmpty

/-- A thrown JavaScript Error value: its name and message properties. -/
structure JsError where
  name : String
  message : String
deriving DecidableEq

/-- The AbortError produced when an AbortController cancels a fetch. -/
def abortError : JsError := { name := "AbortError", message := "The operation was aborted" }

/-- Outcome of one fetch-and-decode interaction with an external HTTP
endpoint, as observed by the calling code: the request may be aborted by
the timeout, the fetch may reject, the response may carry a non-success
status, the body may fail to decode as JSON, or a decoded value of type
alpha arrives. -/
inductive FetchOutcome (α : Type) where
| timeout : FetchOutcome α
| networkError (msg : String) : FetchOutcome α
| httpError (status : Nat) : FetchOutcome α
| badJson (msg : String) : FetchOutcome α
| success (data : α) : FetchOutcome α
deriving DecidableEq

/-- True on every outcome other than a successfully decoded response. -/
def FetchOutcome.isFailure {α : Type} : FetchOutcome α → Bool
| .success _ => false
| _ => true

/-- The result shape produced by the search client (src/search.js): a
JavaScript object literal with up to four fields; a field the source
does not set is modelled as none. -/
structure SnippetResult where
  ok : Bool
  snippets : Option String
  error : Option String
  message : Option String
deriving DecidableEq

/-- One entry of data.RelatedTopics in the DuckDuckGo response; only its
Text property is read by the code. -/
structure DDGTopic where
  text : Option String
deriving DecidableEq

/-- The decoded DuckDuckGo instant-answer response, restricted to the
properties the code reads: data.Abstract and data.RelatedTopics (the
latter is none when absent or not an array). -/
structure DDGResponse where
  abstract : Option String
  relatedTopics : Option (List DDGTopic)
deriving DecidableEq

/-- Candidate snippets collected by webSearch, src/search.js lines
34-48: push data.Abstract if truthy, then for the first maxResults
related topics push topic.Text if truthy. -/
def webSearchCandidates (data : DDGResponse) (maxResults : Nat) : List String :=
  (if jsTruthy data.abstract then [data.abstract.getD ""] else []) ++
  (match data.relatedTopics with
   | some topics =>
       ((topics.take maxResults).filter (fun t => jsTruthy t.text)).map (fun t => t.text.getD "")
   | none => [])

/-- The length filter of src/search.js line 63:
filter (fun s => s && s.length > 20). -/
def webSearchFiltered (l : List String) : List String :=
  l.filter (fun s => !s.isEmpty && decide (s.length > 20))

/-- One formatted snippet entry, src/search.js line 65: the 1-based
index marker in square brackets followed by the snippet. -/
def formatEntry (idx : Nat) (s : String) : String :=
  "[" ++ toString (idx + 1) ++ "] " ++ s

/-- Map-with-index of formatEntry, starting the index at k. -/
def formatEntriesFrom (k : Nat) : List String → List String
| [] => []
| s :: rest => formatEntry k s :: formatEntriesFrom (k + 1) rest

/-- The map step of src/search.js line 65 applied to a whole list. -/
def formatEntries (l : List String) : List String :=
  formatEntriesFrom 0 l

/-- The join step of src/search.js line 66: entries separated by a blank
line; the join of the empty list is the empty string. -/
def joinSnippets (l : List String) : String :=
  String.intercalate "\n\n" l

/-- The full formatting pipeline of src/search.js lines 62-65: filter to
length above 20, truncate to maxResults, prefix with index markers. -/
def webSearchEntries (data : DDGResponse) (maxResults : Nat) : List String :=
  formatEntries ((webSearchFiltered (webSearchCandidates data maxResults)).take maxResults)

/-- The try block of webSearch, src/search.js lines 13-71: each external
failure surfaces as a thrown error (timeout as AbortError, a non-success
status as the thrown Error of line 28); a decoded response is processed
into a SnippetResult. -/
def webSearchTry (maxResults : Nat) (o : FetchOutcome DDGResponse) : Except JsError SnippetResult :=
  match o with
  | .timeout => .error abortError
  | .networkError msg => .error { name := "FetchError", message := msg }
  | .httpError status =>
      .error { name := "Error", message := "Search API returned " ++ toString status }
  | .badJson msg => .error { name := "SyntaxError", message := msg }
  | .success data =>
      let snippets := webSearchCandidates data maxResults
      if snippets.length = 0 then
        .ok { ok := true, snippets := none, error := none, message := some "No search results found" }
      else
        .ok { ok := true, snippets := some (joinSnippets (formatEntries ((webSearchFiltered snippets).take maxResults))),
              error := none, message := none }

/-- The catch handler of webSearch, src/search.js lines 73-89: an
AbortError becomes the fixed timeout failure, every other error is
reported through its message. -/
def webSearchCatch (e : JsError) : SnippetResult :=
  if e.name = "AbortError" then
    { ok := false, snippets := none, error := some "Search timed out", message := none }
  else
    { ok := false, snippets := none, error := some e.message, message := none }

/-- webSearch, src/search.js lines 9-90: the try block with its
all-catching handler.  Total: every outcome yields a SnippetResult, so
the embedded function never raises to its caller.  The query argument
only feeds the request URL and is not needed once the fetch outcome is
given. -/
def webSearch (maxResults : Nat) (o : FetchOutcome DDGResponse) : SnippetResult :=
  match webSearchTry maxResults o with
  | .ok r => r
  | .error e => webSearchCatch e

/-- The result shape of checkSearchHealth, src/search.js lines 94-101. -/
structure HealthResult where
  ok : Bool
  error : Option String
deriving DecidableEq

/-- The try/catch body of checkSearchHealth, src/search.js lines 95-100,
over the settled state of the awaited call: a resolved SnippetResult
yields an object with only the ok field; a rejection is caught and
reported with ok false and the error message. -/
def checkSearchHealthOn (call : Except JsError SnippetResult) : HealthResult :=
  match call with
  | .ok result => { ok := result.ok, error := none }
  | .error e => { ok := false, error := some e.message }

/-- checkSearchHealth, src/search.js lines 94-101: probes
webSearch with query test and maxResults 1.  The awaited call is the
embedded webSearch, which is total, so it always resolves. -/
def checkSearchHealth (o : FetchOutcome DDGResponse) : HealthResult :=
  checkSearchHealthOn (.ok (webSearch 1 o))

/-- One entry of data.query.search in the Wikipedia response; the code
reads its title and snippet properties. -/
structure WikiSearchItem where
  title : String
  snippet : String
deriving DecidableEq

/-- The decoded Wikipedia search response, restricted to
data.query?.search: none when query or search is absent. -/
structure WikiResponse where
  search : Option (List WikiSearchItem)
deriving DecidableEq

/-- Remainder of a character list after the first closing angle bracket,
or none when there is no closing bracket. -/
def dropTag : List Char → Option (List Char)
| [] => none
| c :: rest => if c = '>' then some rest else dropTag rest

/-- One pass of the global regex replace of src/search.js line 130,
which deletes every tag-shaped run: an opening angle bracket, any
characters other than a closing bracket, then the closing bracket.  An
opening bracket with no later closing bracket is kept.  Fuel-indexed
structural recursion; fuel equal to the list length always suffices. -/
def stripTagsAux : Nat → List Char → List Char
| _, [] => []
| 0, cs => cs
| fuel + 1, c :: rest =>
    if c = '<' then
      match dropTag rest with
      | some rem => stripTagsAux fuel rem
      | none => c :: stripTagsAux fuel rest
    else c :: stripTagsAux fuel rest

/-- The replace of src/search.js line 130 on a string. -/
def stripTags (s : String) : String :=
  String.mk (stripTagsAux s.data.length s.data)

/-- The map step of src/search.js line 130: index marker, title, a
colon, and the snippet with markup stripped. -/
def wikiEntry (idx : Nat) (item : WikiSearchItem) : String :=
  "[" ++ toString (idx + 1) ++ "] " ++ item.title ++ ": " ++ stripTags item.snippet

/-- Map-with-index of wikiEntry, starting the index at k. -/
def wikiEntriesFrom (k : Nat) : List WikiSearchItem → List String
| [] => []
| item :: rest => wikiEntry k item :: wikiEntriesFrom (k + 1) rest

/-- All formatted Wikipedia entries, src/search.js lines 129-131. -/
def wikiEntries (items : List WikiSearchItem) : List String :=
  wikiEntriesFrom 0 items

/-- The try block of searchWikipedia, src/search.js lines 110-133: a
non-success status throws the fixed Error of line 120; a decoded
response with no search list or an empty one yields the bare
success-with-null object of line 126; otherwise the formatted join. -/
def searchWikipediaTry (o : FetchOutcome WikiResponse) : Except JsError SnippetResult :=
  match o with
  | .timeout => .error abortError
  | .networkError msg => .error { name := "FetchError", message := msg }
  | .httpError _ => .error { name := "Error", message := "Wikipedia API failed" }
  | .badJson msg => .error { name := "SyntaxError", message := msg }
  | .success data =>
      match data.search with
      | none => .ok { ok := true, snippets := none, error := none, message := none }
      | some items =>
          if items.length = 0 then
            .ok { ok := true, snippets := none, error := none, message := none }
          else
            .ok { ok := true, snippets := some (joinSnippets (wikiEntries items)),
                  error := none, message := none }

/-- searchWikipedia, src/search.js lines 109-139: the try block with the
catch handler of lines 135-138, which reports any error through its
message. -/
def searchWikipedia (o : FetchOutcome WikiResponse) : SnippetResult :=
  match searchWikipediaTry o with
  | .ok r => r
  | .error e => { ok := false, snippets := none, error := some e.message, message := none }

/-- The JSON body of the two 401 responses of requireAuth,
src/server.js lines 77 and 93; the success field is absent in the
no-token body. -/
structure ErrorBody where
  success : Option Bool
  error : String
deriving DecidableEq

/-- The body sent on a missing token, src/server.js line 77. -/
def noTokenBody : ErrorBody := { success := none, error := "No token provided" }

/-- The body sent from the catch handler, src/server.js line 93. -/
def authFailedBody : ErrorBody := { success := some false, error := "Authentication failed." }

/-- What the requireAuth middleware does with the request: either call
next with req.userEmail set, or respond with a status and a JSON body. -/
inductive AuthResult where
| proceed (userEmail : String) : AuthResult
| reject (status : Nat) (body : ErrorBody) : AuthResult
deriving DecidableEq

/-- The resolved value of supabase.auth.getUser: an error property
(modelled by its truthiness) and data.user (its email when present). -/
structure GetUserResult where
  error : Bool
  user : Option String
deriving DecidableEq

/-- Outcome of the Promise.race of src/server.js lines 80-83 between
the identity-provider lookup and the 5-second timer: the timer may win
and reject, the lookup may itself reject, or the lookup resolves. -/
inductive IdpOutcome where
| timeoutFirst : IdpOutcome
| threw (msg : String) : IdpOutcome
| resolved (r : GetUserResult) : IdpOutcome
deriving DecidableEq

/-- True when the race outcome makes requireAuth reject: the timer won,
the lookup threw, or it resolved with an error or without a user. -/
def IdpOutcome.failing : IdpOutcome → Bool
| .timeoutFirst => true
| .threw _ => true
| .resolved r => r.error || r.user.isNone

/-- Fields of a character list split at every space, exactly as the
JavaScript split(' ') cuts a string: the empty list gives one empty
field, and every space starts a new field, so leading, trailing and
doubled spaces give empty fields. -/
def splitCharsOnSpace : List Char → List (List Char)
| [] => [[]]
| c :: rest =>
    if c = ' ' then [] :: splitCharsOnSpace rest
    else
      match splitCharsOnSpace rest with
      | [] => [[c]]
      | w :: ws => (c :: w) :: ws

/-- The JavaScript split(' ') on a string. -/
def splitSpace (s : String) : List String :=
  (splitCharsOnSpace s.data).map String.mk

/-- Token extraction of src/server.js line 76:
req.headers.authorization?.split(' ')[1]. -/
def extractToken (authorization : Option String) : Option String :=
  authorization.bind (fun h => (splitSpace h).get? 1)

/-- Observable behaviour of one requireAuth invocation: the dispatch
decision together with whether the identity provider was contacted. -/
structure AuthStep where
  result : AuthResult
  calledProvider : Bool
deriving DecidableEq

/-- requireAuth, src/server.js lines 66-95.  BYPASS_AUTH short-circuits
to the sentinel email with no provider contact.  Otherwise the token is
extracted from the authorization header; a falsy token is rejected with
the no-token body before any external call.  With a token present the
race outcome decides: a timer win or a lookup rejection is caught, and a
resolved value with a truthy error or no user throws and is caught, all
three landing on the catch handler's 401 body; a resolved user proceeds
with its email. -/
def requireAuth (bypass : Bool) (authorization : Option String) (idp : IdpOutcome) : AuthStep :=
  if bypass then
    { result := .proceed "test@dev.com", calledProvider := false }
  else
    let token := extractToken authorization
    if !jsTruthy token then
      { result := .reject 401 noTokenBody, calledProvider := false }
    else
      match idp with
      | .timeoutFirst => { result := .reject 401 authFailedBody, calledProvider := true }
      | .threw _ => { result := .reject 401 authFailedBody, calledProvider := true }
      | .resolved r =>
          if r.error || r.user.isNone then
            { result := .reject 401 authFailedBody, calledProvider := true }
          else
            { result := .proceed (r.user.getD ""), calledProvider := true }

/-- The map-with-index step preserves the number of entries. -/
theorem length_formatEntriesFrom (k : Nat) (l : List String) :
    (formatEntriesFrom k l).length = l.length := by
  induction l generalizing k with
  | nil => rfl
  | cons s rest ih => simp [formatEntriesFrom, ih]

/-- Every formatted entry is an index marker applied to a member of the
underlying list. -/
theorem mem_formatEntriesFrom {e : String} {k : Nat} {l : List String}
    (h : e ∈ formatEntriesFrom k l) : ∃ i s, s ∈ l ∧ e = formatEntry i s := by
  induction l generalizing k with
  | nil => simp [formatEntriesFrom] at h
  | cons s rest ih =>
      simp only [formatEntriesFrom, List.mem_cons] at h
      rcases h with h | h
      · exact ⟨k, s, List.mem_cons_self s rest, h⟩
      · obtain ⟨i, t, ht, he⟩ := ih h
        exact ⟨i, t, List.mem_cons_of_mem s ht, he⟩

/-- Formatting only lengthens a snippet. -/
theorem length_le_formatEntry (i : Nat) (s : String) :
    s.length ≤ (formatEntry i s).length := by
  simp only [formatEntry, String.length_append]
  omega

/-- Members of the filtered list exceed the 20-character threshold. -/
theorem mem_webSearchFiltered_length {s : String} {l : List String}
    (h : s ∈ webSearchFiltered l) : 20 < s.length := by
  simp only [webSearchFiltered, List.mem_filter, Bool.and_eq_true, decide_eq_true_eq] at h
  exact h.2.2

/-- A string longer than 20 characters is not empty. -/
theorem isEmpty_false_of_length {s : String} (h : 20 < s.length) : s.isEmpty = false := by
  rcases he : s.isEmpty with _ | _
  · rfl
  · rw [String.isEmpty_iff] at he
    subst he
    simp at h

/-- The catch handler of webSearch always reports failure with no
snippets and a present error message. -/
theorem webSearchCatch_shape (e : JsError) :
    (webSearchCatch e).ok = false ∧ (webSearchCatch e).snippets = none ∧
    (webSearchCatch e).error ≠ none := by
  unfold webSearchCatch
  split <;> simp

/-- A resolved webSearch try block always reports success. -/
theorem webSearchTry_ok {n : Nat} {o : FetchOutcome DDGResponse} {r : SnippetResult}
    (h : webSearchTry n o = .ok r) : r.ok = true := by
  cases o with
  | success d =>
      simp only [webSearchTry] at h
      split at h <;> (simp only [Except.ok.injEq] at h; subst h; rfl)
  | timeout => simp [webSearchTry] at h
  | networkError msg => simp [webSearchTry] at h
  | httpError status => simp [webSearchTry] at h
  | badJson msg => simp [webSearchTry] at h

/-- A resolved searchWikipedia try block always reports success. -/
theorem searchWikipediaTry_ok {o : FetchOutcome WikiResponse} {r : SnippetResult}
    (h : searchWikipediaTry o = .ok r) : r.ok = true := by
  cases o with
  | success d =>
      rcases d with ⟨search⟩
      cases search with
      | none =>
          simp only [searchWikipediaTry, Except.ok.injEq] at h
          subst h; rfl
      | some items =>
          simp only [searchWikipediaTry] at h
          split at h <;> (simp only [Except.ok.injEq] at h; subst h; rfl)
  | timeout => simp [searchWikipediaTry] at h
  | networkError msg => simp [searchWikipediaTry] at h
  | httpError status => simp [searchWikipediaTry] at h
  | badJson msg => simp [searchWikipediaTry] at h

/-- C1: the claim states that when candidates were collected but every
one is removed by the minimum-length filter, webSearch returns snippets
null.  Counterexample: a response whose only candidate is the 5-character
abstract passes the zero-candidate check, is then filtered out entirely,
and the join of the empty list yields snippets equal to the empty string,
not null. -/
theorem C1_counterexample :
    webSearchCandidates { abstract := some "short", relatedTopics := none } 3 ≠ [] ∧
    webSearchFiltered (webSearchCandidates { abstract := some "short", relatedTopics := none } 3) = [] ∧
    webSearch 3 (.success { abstract := some "short", relatedTopics := none }) =
      { ok := true, snippets := some "", error := none, message := none } := by
  decide

/-- C1 (amended): when candidate snippets were collected but the
minimum-length filter removes every one of them, webSearch returns ok
true with snippets equal to the empty string (and no message); the
snippets-null no-results reply occurs only when no candidate was
collected at all. -/
theorem C1_all_filtered_empty (n : Nat) (data : DDGResponse)
    (hne : webSearchCandidates data n ≠ [])
    (hall : webSearchFiltered (webSearchCandidates data n) = []) :
    webSearch n (.success data) =
      { ok := true, snippets := some "", error := none, message := none } := by
  have hlen : ¬ (webSearchCandidates data n).length = 0 := by
    simpa [List.length_eq_zero] using hne
  simp [webSearch, webSearchTry, hlen, hall, formatEntries, formatEntriesFrom,
    joinSnippets, String.intercalate]

/-- C1 witness: the amended statement at a concrete filtered-out
response. -/
theorem C1_witness :
    webSearch 2 (.success { abstract := some "tiny", relatedTopics := none }) =
      { ok := true, snippets := some "", error := none, message := none } :=
  C1_all_filtered_empty 2 { abstract := some "tiny", relatedTopics := none }
    (by decide) (by decide)

/-- C5: a missing or garbled credential (no second space-separated field
in the authorization header, or an empty one) is rejected with the 401
no-token body before the identity provider is contacted, whatever the
provider interaction would have produced. -/
theorem C5_no_token_no_provider (auth : Option String) (idp : IdpOutcome)
    (h : jsTruthy (extractToken auth) = false) :
    requireAuth false auth idp =
      { result := .reject 401 noTokenBody, calledProvider := false } := by
  simp [requireAuth, h]

/-- C5 witness: a header with a scheme but no token is rejected without
contacting the provider, even though the provider lookup would have
succeeded. -/
theorem C5_witness :
    requireAuth false (some "Bearer")
      (.resolved { error := false, user := some "user@example.com" }) =
      { result := .reject 401 noTokenBody, calledProvider := false } :=
  C5_no_token_no_provider (some "Bearer")
    (.resolved { error := false, user := some "user@example.com" }) (by decide)

/-- C8: in normal mode, when the 5-second timer settles before the
identity-provider lookup, the race rejects, the rejection is caught, and
the request is rejected with the 401 authentication-failed body.  The
timer-first outcome carries no provider value: the lookup is abandoned,
so the result is the same whatever the provider would eventually have
returned. -/
theorem C8_deadline (auth : Option String)
    (h : jsTruthy (extractToken auth) = true) :
    requireAuth false auth .timeoutFirst =
      { result := .reject 401 authFailedBody, calledProvider := true } := by
  simp [requireAuth, h]

/-- C8 witness: the deadline case at a concrete bearer header. -/
theorem C8_witness :
    requireAuth false (some "Bearer good-token") .timeoutFirst =
      { result := .reject 401 authFailedBody, calledProvider := true } :=
  C8_deadline (some "Bearer good-token") (by decide)

/-- C9: with bypass mode enabled, requireAuth proceeds with the fixed
sentinel email for every authorization header and every conceivable
provider interaction, and never contacts the provider. -/
theorem C9_bypass (auth : Option String) (idp : IdpOutcome) :
    requireAuth true auth idp =
      { result := .proceed "test@dev.com", calledProvider := false } := by
  simp [requireAuth]

/-- C2: the claim states the invariant that ok false implies snippets
null and that a non-null snippets value is non-empty with every entry
longer than 20 characters.  Counterexample: searchWikipedia applies no
length filter, so a one-item response with a one-character title and a
one-character snippet yields the non-null 8-character entry, well under
the threshold. -/
theorem C2_counterexample :
    (searchWikipedia (.success { search := some [{ title := "A", snippet := "b" }] })).ok
      = true ∧
    (searchWikipedia (.success { search := some [{ title := "A", snippet := "b" }] })).snippets
      = some "[1] A: b" ∧
    ("[1] A: b").length ≤ 20 := by
  decide

/-- C2 (amended): ok false implies snippets null for both webSearch and
searchWikipedia; every formatted webSearch entry is longer than 20
characters (though the joined snippets string may be the empty string
when every candidate is filtered out); searchWikipedia entries carry no
minimum-length guarantee. -/
theorem C2_invariant (n : Nat) (o1 : FetchOutcome DDGResponse)
    (o2 : FetchOutcome WikiResponse) (data : DDGResponse) :
    ((webSearch n o1).ok = false → (webSearch n o1).snippets = none) ∧
    ((searchWikipedia o2).ok = false → (searchWikipedia o2).snippets = none) ∧
    (∀ e ∈ webSearchEntries data n, 20 < e.length) := by
  refine ⟨?_, ?_, ?_⟩
  · intro h
    rcases hE : webSearchTry n o1 with e | r
    · have hw : webSearch n o1 = webSearchCatch e := by simp [webSearch, hE]
      rw [hw]
      exact (webSearchCatch_shape e).2.1
    · have hw : webSearch n o1 = r := by simp [webSearch, hE]
      rw [hw] at h
      exact absurd h (by simp [webSearchTry_ok hE])
  · intro h
    rcases hE : searchWikipediaTry o2 with e | r
    · simp [searchWikipedia, hE]
    · have hw : searchWikipedia o2 = r := by simp [searchWikipedia, hE]
      rw [hw] at h
      exact absurd h (by simp [searchWikipediaTry_ok hE])
  · intro e he
    simp only [webSearchEntries, formatEntries] at he
    obtain ⟨i, s, hs, rfl⟩ := mem_formatEntriesFrom he
    have hmem : s ∈ webSearchFiltered (webSearchCandidates data n) :=
      List.mem_of_mem_take hs
    calc 20 < s.length := mem_webSearchFiltered_length hmem
      _ ≤ (formatEntry i s).length := length_le_formatEntry i s

/-- C2 witness: the amended statement at concrete failure outcomes and a
concrete response with one 21-character abstract. -/
theorem C2_witness :
    (webSearch 3 .timeout).snippets = none ∧
    (searchWikipedia (.networkError "boom")).snippets = none ∧
    20 < ("[1] u-v-w-x-y-z-0-1-2-3-4").length :=
  ⟨(C2_invariant 3 .timeout (.networkError "boom")
      { abstract := some "u-v-w-x-y-z-0-1-2-3-4", relatedTopics := none }).1 (by decide),
   (C2_invariant 3 .timeout (.networkError "boom")
      { abstract := some "u-v-w-x-y-z-0-1-2-3-4", relatedTopics := none }).2.1 (by decide),
   (C2_invariant 3 .timeout (.networkError "boom")
      { abstract := some "u-v-w-x-y-z-0-1-2-3-4", relatedTopics := none }).2.2
     "[1] u-v-w-x-y-z-0-1-2-3-4" (by decide)⟩

/-- C3: the claim states that the missing-credential rejection and the
invalid-credential rejection are surfaced identically.  Counterexample:
a request with no header is rejected with the body of src/server.js line
77 and a request whose token the provider rejects with the body of line
93; the two bodies differ, so the two failure kinds are
distinguishable. -/
theorem C3_counterexample :
    (requireAuth false none .timeoutFirst).result = .reject 401 noTokenBody ∧
    (requireAuth false (some "Bearer tok")
        (.resolved { error := true, user := none })).result =
      .reject 401 authFailedBody ∧
    noTokenBody ≠ authFailedBody := by
  decide

/-- C3 (amended): both failure kinds produce an HTTP 401 rejection, but
their JSON bodies differ: a missing credential yields the no-token body
and every failing provider interaction yields the
authentication-failed body, and the two bodies are distinct, so the
caller can tell the kinds apart. -/
theorem C3_distinct_bodies (auth : Option String) (idp : IdpOutcome) :
    (jsTruthy (extractToken auth) = false →
      (requireAuth false auth idp).result = .reject 401 noTokenBody) ∧
    (jsTruthy (extractToken auth) = true → idp.failing = true →
      (requireAuth false auth idp).result = .reject 401 authFailedBody) ∧
    noTokenBody ≠ authFailedBody := by
  refine ⟨fun h => by simp [requireAuth, h], fun h hf => ?_, by decide⟩
  cases idp with
  | resolved r =>
      simp only [IdpOutcome.failing] at hf
      simp [requireAuth, h, hf]
  | _ => simp [requireAuth, h]

/-- C3 witness: the amended statement at a concrete empty header and a
concrete bearer header whose lookup throws. -/
theorem C3_witness :
    (requireAuth false (some "") (.threw "boom")).result = .reject 401 noTokenBody ∧
    (requireAuth false (some "Bearer abc") (.threw "boom")).result =
      .reject 401 authFailedBody :=
  ⟨(C3_distinct_bodies (some "") (.threw "boom")).1 (by decide),
   (C3_distinct_bodies (some "Bearer abc") (.threw "boom")).2.1 (by decide) (by decide)⟩

/-- C4: both search functions are total on every fetch outcome (the
embedded try blocks throw only values the catch handlers fully consume),
and on every failing outcome — timeout, network rejection, non-success
status, malformed JSON — the result has ok false, snippets null, and a
present error message. -/
theorem C4_never_raises (n : Nat) (o1 : FetchOutcome DDGResponse)
    (o2 : FetchOutcome WikiResponse) :
    (o1.isFailure = true →
      (webSearch n o1).ok = false ∧ (webSearch n o1).snippets = none ∧
      (webSearch n o1).error ≠ none) ∧
    (o2.isFailure = true →
      (searchWikipedia o2).ok = false ∧ (searchWikipedia o2).snippets = none ∧
      (searchWikipedia o2).error ≠ none) := by
  constructor
  · intro h
    cases o1 <;>
      simp_all [FetchOutcome.isFailure, webSearch, webSearchTry, webSearchCatch, abortError]
  · intro h
    cases o2 <;>
      simp_all [FetchOutcome.isFailure, searchWikipedia, searchWikipediaTry, abortError]

/-- C4 witness: the failure shape at a concrete 500 status for webSearch
and a concrete malformed-JSON outcome for searchWikipedia. -/
theorem C4_witness :
    ((webSearch 3 (.httpError 500)).ok = false ∧
      (webSearch 3 (.httpError 500)).snippets = none ∧
      (webSearch 3 (.httpError 500)).error ≠ none) ∧
    ((searchWikipedia (.badJson "unexpected token")).ok = false ∧
      (searchWikipedia (.badJson "unexpected token")).snippets = none ∧
      (searchWikipedia (.badJson "unexpected token")).error ≠ none) :=
  ⟨(C4_never_raises 3 (.httpError 500) (.badJson "unexpected token")).1 rfl,
   (C4_never_raises 3 (.httpError 500) (.badJson "unexpected token")).2 rfl⟩

/-- C6: the formatting pipeline of webSearch never produces more than
maxResults entries: the filtered candidate list is truncated to
maxResults before the index markers are attached, whatever the provider
response contained. -/
theorem C6_result_cap (data : DDGResponse) (n : Nat) :
    (webSearchEntries data n).length ≤ n := by
  simp only [webSearchEntries, formatEntries, length_formatEntriesFrom, List.length_take]
  exact min_le_left n _

/-- C7: the length filter of webSearch is exact: a candidate of length
at most 20 never survives it, a candidate of length over 20 always does,
and the returned entries are precisely the surviving candidates
truncated to maxResults and formatted. -/
theorem C7_filter_exact (data : DDGResponse) (n : Nat) :
    (∀ s ∈ webSearchCandidates data n, s.length ≤ 20 →
      s ∉ webSearchFiltered (webSearchCandidates data n)) ∧
    (∀ s ∈ webSearchCandidates data n, 20 < s.length →
      s ∈ webSearchFiltered (webSearchCandidates data n)) ∧
    webSearchEntries data n =
      formatEntries ((webSearchFiltered (webSearchCandidates data n)).take n) := by
  refine ⟨?_, ?_, rfl⟩
  · intro s _ hle hmem
    exact absurd (mem_webSearchFiltered_length hmem) (by omega)
  · intro s hs hgt
    simp [webSearchFiltered, List.mem_filter, hs, isEmpty_false_of_length hgt, hgt]

/-- C7 witness: a concrete 21-character abstract survives the filter and
a concrete 4-character abstract does not. -/
theorem C7_witness :
    "a-b-c-d-e-f-g-h-i-j-k" ∈
      webSearchFiltered (webSearchCandidates
        { abstract := some "a-b-c-d-e-f-g-h-i-j-k", relatedTopics := none } 3) ∧
    "tiny" ∉
      webSearchFiltered (webSearchCandidates
        { abstract := some "tiny", relatedTopics := none } 3) :=
  ⟨(C7_filter_exact { abstract := some "a-b-c-d-e-f-g-h-i-j-k", relatedTopics := none } 3).2.1
      "a-b-c-d-e-f-g-h-i-j-k" (by decide) (by decide),
   (C7_filter_exact { abstract := some "tiny", relatedTopics := none } 3).1
      "tiny" (by decide) (by decide)⟩

/-- C10: checkSearchHealth reports exactly the ok field of the probe
webSearch with query test and maxResults 1 and sets no error field: the
probe call is total (its catch handler consumes every thrown value), so
the catch branch of checkSearchHealth, which would report ok false with
an error, is never taken. -/
theorem C10_health (o : FetchOutcome DDGResponse) :
    checkSearchHealth o = { ok := (webSearch 1 o).ok, error := none } ∧
    checkSearchHealth o = checkSearchHealthOn (.ok (webSearch 1 o)) :=
  ⟨rfl, rfl⟩

end EduProBack
